import Mathlib

/-!
Verification of the SafaiWalay booking lifecycle engine.

Shallow embedding of the booking status machine, duration tracker,
earnings ledger, dispatch queue and payment verification trigger, as
implemented in `src/lib/supabase.ts` (the unnamed client module),
`src/pages/CleanerDashboard.tsx`, and the SQL migration
`20250124210416_steep_unit.sql`.

Timestamps are modelled as integer milliseconds since the epoch (the
JavaScript `Date.getTime()` representation).  Nullable database columns
are `Option` values.  A supabase conditional update that matches zero
rows is a silent no-op for the caller: the client receives no error
unless `.single()` is chained on the request, so the lifecycle
functions below return `Except.ok` with the row unchanged when their
update predicate does not hold -- exactly what the source code
observes.
-/

namespace SafaiWalay

/-- The booking_status enum, after migration steep_unit added
payment_verified. -/
inductive Status where
  | pending
  | picked
  | in_progress
  | paused
  | completed
  | payment_verified
deriving DecidableEq, Repr

/-- One row of the bookings table, restricted to the columns the
lifecycle code reads or writes. -/
structure Booking where
  id : Nat
  user_id : Nat
  service_id : Nat
  cleaner_id : Option Nat := none
  status : Status
  scheduled_at : Int
  amount : Int
  picked_at : Option Int := none
  started_at : Option Int := none
  paused_at : Option Int := none
  total_pause_duration : Option Int := none
  completed_at : Option Int := none
  payment_collected_at : Option Int := none
  payment_proof_url : Option String := none
  is_deleted : Bool := false
deriving DecidableEq, Repr

/-- One entry of a cleaner earnings_history (jsonb array element built
by the trigger). -/
structure EarningsEntry where
  booking_id : Nat
  amount : Int
  service : Option String
  earned_at : Int
deriving DecidableEq, Repr

/-- One row of the cleaners table (earnings account). -/
structure Cleaner where
  id : Nat
  earnings_balance : Option Int := none
  earnings_history : List EarningsEntry := []
deriving DecidableEq, Repr

/-- One row of the earnings_withdrawals table. -/
structure Withdrawal where
  cleaner_id : Nat
  amount : Int
deriving DecidableEq, Repr

/-- Errors the client functions can raise (thrown Error values). -/
inductive DbErr where
  | notAuthenticated
  | cleanerProfileNotFound
  | jobNotPaused
  | insufficientBalance
deriving DecidableEq, Repr

/-- createBooking inserts a fresh row with status pending and every
other lifecycle column at its null default. -/
def newBooking (id uid sid : Nat) (sched amt : Int) : Booking :=
  { id := id, user_id := uid, service_id := sid, status := Status.pending,
    scheduled_at := sched, amount := amt }

/-- pickBooking: conditional update setting cleaner_id, status picked
and picked_at, guarded by eq(status, pending) and eq(is_deleted,
false).  A zero-row match produces no client error, so the function
resolves successfully either way. -/
def pickBooking (me : Nat) (now : Int) (b : Booking) : Except DbErr Booking :=
  if b.status = Status.pending ∧ b.is_deleted = false then
    Except.ok { b with cleaner_id := some me, status := Status.picked,
                       picked_at := some now }
  else
    Except.ok b

/-- startJob: conditional update to in_progress from picked, setting
started_at. -/
def startJob (now : Int) (b : Booking) : Except DbErr Booking :=
  if b.status = Status.picked ∧ b.is_deleted = false then
    Except.ok { b with status := Status.in_progress, started_at := some now }
  else
    Except.ok b

/-- pauseJob: conditional update to paused from in_progress, setting
paused_at. -/
def pauseJob (now : Int) (b : Booking) : Except DbErr Booking :=
  if b.status = Status.in_progress ∧ b.is_deleted = false then
    Except.ok { b with status := Status.paused, paused_at := some now }
  else
    Except.ok b

/-- resumeJob: reads the row first; throws "Job not paused" when
paused_at is null; otherwise adds floor((now - paused_at) / 60000)
minutes to total_pause_duration (null coalesced to 0) and conditionally
updates to in_progress from paused, clearing paused_at. -/
def resumeJob (now : Int) (b : Booking) : Except DbErr Booking :=
  match b.paused_at with
  | none => Except.error DbErr.jobNotPaused
  | some p =>
    let pauseDuration := Int.fdiv (now - p) (1000 * 60)
    if b.status = Status.paused ∧ b.is_deleted = false then
      Except.ok { b with status := Status.in_progress, paused_at := none,
                         total_pause_duration :=
                           some ((b.total_pause_duration.getD 0) + pauseDuration) }
    else
      Except.ok b

/-- completeJob: conditional update to completed from in_progress or
paused, setting completed_at.  It does not touch paused_at. -/
def completeJob (now : Int) (b : Booking) : Except DbErr Booking :=
  if (b.status = Status.in_progress ∨ b.status = Status.paused) ∧
      b.is_deleted = false then
    Except.ok { b with status := Status.completed, completed_at := some now }
  else
    Except.ok b

/-- The per-service commission rate of the trigger: the SQL CASE gives
150.00 for the Car Wash service and 200.00 otherwise (including a
missing service name). -/
def serviceRate (serviceName : Nat → Option String) (sid : Nat) : Int :=
  if serviceName sid = some "Car Wash" then 150 else 200

/-- The booking-row transformation of the BEFORE UPDATE trigger
verify_payment_trigger: when the proposed row sets payment_proof_url
and the stored row had it null, the trigger overwrites
payment_collected_at with the current time and the status with
payment_verified; otherwise it returns the proposed row unchanged. -/
def triggerRow (old new : Booking) (now : Int) : Booking :=
  if new.payment_proof_url.isSome ∧ old.payment_proof_url = none then
    { new with payment_collected_at := some now,
               status := Status.payment_verified }
  else
    new

/-- verify_payment_and_update_earnings: the full trigger function.  On
the null to non-null edge of payment_proof_url it rewrites the booking
row via triggerRow, computes the fixed per-service earning amount,
builds one history entry, and updates the cleaners row whose id equals
NEW.cleaner_id, crediting earnings_balance (null coalesced to 0) and
appending the entry to earnings_history (null coalesced to the empty
array). -/
def verify_payment_and_update_earnings (old new : Booking)
    (cleaners : List Cleaner) (serviceName : Nat → Option String)
    (now : Int) : Booking × List Cleaner :=
  if new.payment_proof_url.isSome ∧ old.payment_proof_url = none then
    let service_name := serviceName new.service_id
    let earning_amount : Int := if service_name = some "Car Wash" then 150 else 200
    let earnings_entry : EarningsEntry :=
      { booking_id := new.id, amount := earning_amount,
        service := service_name, earned_at := now }
    let cleaners' := cleaners.map fun c =>
      if some c.id = new.cleaner_id then
        { c with earnings_balance := some ((c.earnings_balance.getD 0) + earning_amount),
                 earnings_history := c.earnings_history ++ [earnings_entry] }
      else c
    (triggerRow old new now, cleaners')
  else
    (new, cleaners)

/-- uploadPaymentProof: the client update sets payment_proof_url and
payment_collected_at on the row matched by id alone -- no status
condition and no requirement that the fields are still null.  The
stored row is then rewritten by the BEFORE UPDATE trigger.  The pair
returned is the resulting bookings row and cleaners table. -/
def uploadPaymentProof (b : Booking) (url : String)
    (cleaners : List Cleaner) (serviceName : Nat → Option String)
    (now : Int) : Booking × List Cleaner :=
  let proposed := { b with payment_proof_url := some url,
                           payment_collected_at := some now }
  verify_payment_and_update_earnings b proposed cleaners serviceName now

/-- The booking-row effect of uploadPaymentProof (the trigger does not
let the cleaners table influence the booking row). -/
def uploadPaymentProofRow (url : String) (now : Int) (b : Booking) : Booking :=
  triggerRow b { b with payment_proof_url := some url,
                        payment_collected_at := some now } now

/-- requestWithdrawal: throws "Insufficient balance" when the stored
balance (null compares as 0) is strictly below the requested amount;
otherwise inserts a withdrawal row and writes balance - amount back. -/
def requestWithdrawal (c : Cleaner) (amount : Int) :
    Except DbErr (Cleaner × Withdrawal) :=
  if (c.earnings_balance.getD 0) < amount then
    Except.error DbErr.insufficientBalance
  else
    Except.ok
      ({ c with earnings_balance := some ((c.earnings_balance.getD 0) - amount) },
       { cleaner_id := c.id, amount := amount })

/-! Dispatch queue and earnings dashboard (CleanerDashboard.tsx). -/

/-- Membership in fetchAvailableBookings: system-wide pending pool,
not soft-deleted. -/
def availableFilter (b : Booking) : Bool :=
  b.status == Status.pending && !b.is_deleted

/-- Membership in fetchCleanerBookings for cleaner me: assigned rows
that are not soft-deleted. -/
def cleanerOwned (me : Nat) (b : Booking) : Bool :=
  b.cleaner_id == some me && !b.is_deleted

/-- The loadOrders filter applied to a cleaner booking before it joins
the current list: payment not collected, not payment_verified, status
among the five pre-verification values. -/
def currentFilter (b : Booking) : Bool :=
  !b.payment_collected_at.isSome &&
  b.status != Status.payment_verified &&
  (b.status == Status.pending || b.status == Status.picked ||
   b.status == Status.in_progress || b.status == Status.paused ||
   b.status == Status.completed)

/-- A booking appears in the current orders list of cleaner me. -/
def inCurrent (me : Nat) (b : Booking) : Bool :=
  availableFilter b || (cleanerOwned me b && currentFilter b)

/-- A booking appears in the history list of cleaner me: assigned,
payment collected, and status payment_verified. -/
def inHistory (me : Nat) (b : Booking) : Bool :=
  cleanerOwned me b && b.payment_collected_at.isSome &&
  b.status == Status.payment_verified

/-- A booking reaches the dashboard of cleaner me at all: it is in the
result of fetchAvailableBookings or of fetchCleanerBookings. -/
def fetchedBy (me : Nat) (b : Booking) : Bool :=
  availableFilter b || cleanerOwned me b

/-- pendingCashout as loadOrders computes it: the sum of amount over
the fetched cleaner bookings whose payment_collected_at is set. -/
def pendingCashout (bs : List Booking) : Int :=
  (bs.filter fun b => b.payment_collected_at.isSome).foldl
    (fun s b => s + b.amount) 0

/-- totalHours as loadOrders computes it: over the same collected
bookings, the sum of (completed_at - started_at) milliseconds divided
by 3600000.  A null timestamp behaves as epoch 0, as new Date(null)
does; total_pause_duration is not consulted. -/
def totalHours (bs : List Booking) : Rat :=
  (bs.filter fun b => b.payment_collected_at.isSome).foldl
    (fun s b =>
      s + ((((b.completed_at.getD 0) - (b.started_at.getD 0) : Int) : Rat) /
            (1000 * 60 * 60))) 0

/-- The millisecond duration getJobDuration computes: end (completed_at
if present, else now) minus started_at minus total_pause_duration
minutes, and, when the row is paused with paused_at set, additionally
minus the wall-clock time since paused_at. -/
def jobDurationMs (b : Booking) (now : Int) : Int :=
  let start := b.started_at.getD 0
  let finish := b.completed_at.getD now
  let d := finish - start - (b.total_pause_duration.getD 0) * 60 * 1000
  if b.status = Status.paused ∧ b.paused_at.isSome then
    d - (now - b.paused_at.getD 0)
  else
    d

/-- Math.floor(duration / 3600000): whole hours, floor division. -/
def durationHours (d : Int) : Int :=
  Int.fdiv d (1000 * 60 * 60)

/-- Math.floor((duration % 3600000) / 60000): whole minutes; the
JavaScript % operator truncates toward zero, which is Int.tmod. -/
def durationMinutes (d : Int) : Int :=
  Int.fdiv (Int.tmod d (1000 * 60 * 60)) (1000 * 60)

/-- getJobDuration: "0h 0m" when started_at is null, otherwise the
formatted hours and minutes of jobDurationMs.  No clamping is applied
anywhere. -/
def getJobDuration (b : Booking) (now : Int) : String :=
  match b.started_at with
  | none => "0h 0m"
  | some _ =>
    toString (durationHours (jobDurationMs b now)) ++ "h " ++
    toString (durationMinutes (jobDurationMs b now)) ++ "m"

/-! A small operational semantics: the writes a single booking row can
receive from the client functions, used to characterise the states the
system can actually persist. -/

/-- One client-initiated write against a booking row. -/
inductive Op where
  | pick (me : Nat) (now : Int)
  | start (now : Int)
  | pause (now : Int)
  | resume (now : Int)
  | complete (now : Int)
  | upload (url : String) (now : Int)
deriving Repr

/-- The row after a client call: a thrown error leaves the row as it
was. -/
def okOr (b : Booking) : Except DbErr Booking → Booking
  | Except.ok b' => b'
  | Except.error _ => b

/-- Apply one operation to the row. -/
def applyOp (b : Booking) : Op → Booking
  | Op.pick me now => okOr b (pickBooking me now b)
  | Op.start now => okOr b (startJob now b)
  | Op.pause now => okOr b (pauseJob now b)
  | Op.resume now => okOr b (resumeJob now b)
  | Op.complete now => okOr b (completeJob now b)
  | Op.upload url now => uploadPaymentProofRow url now b

/-- Run a sequence of operations. -/
def run (b : Booking) (ops : List Op) : Booking :=
  ops.foldl applyOp b

/-- The field-presence facts that every persisted booking row
satisfies: paused implies paused_at set; paused_at set only in paused,
completed or payment_verified rows (completeJob never clears it);
payment_collected_at and payment_proof_url are set exactly in
payment_verified rows. -/
def ReachInv (b : Booking) : Prop :=
  (b.status = Status.paused → b.paused_at.isSome = true) ∧
  (b.paused_at.isSome = true →
    b.status = Status.paused ∨ b.status = Status.completed ∨
    b.status = Status.payment_verified) ∧
  (b.payment_collected_at.isSome = true ↔ b.status = Status.payment_verified) ∧
  (b.payment_proof_url.isSome = true ↔ b.status = Status.payment_verified)

/-- Run uploadPaymentProof over a list of bookings against one cleaner
row, threading the cleaners table through each trigger firing. -/
def uploadAll (serviceName : Nat → Option String) (now : Int) (url : String) :
    List Booking → Cleaner → List Booking × Cleaner
  | [], c => ([], c)
  | b :: bs, c =>
    let r := uploadPaymentProof b url [c] serviceName now
    let c1 := r.2.headD c
    let rest := uploadAll serviceName now url bs c1
    (r.1 :: rest.1, rest.2)

/-- Following the words of spec section 4.2: the active duration of a
booking, (completed_at - started_at) minus total_pause_duration,
converted to hours. -/
def specActiveHours (b : Booking) : Rat :=
  ((((b.completed_at.getD 0) - (b.started_at.getD 0) -
      (b.total_pause_duration.getD 0) * 60 * 1000 : Int) : Rat) /
    (1000 * 60 * 60))

/-- Following the words of spec section 4.3: totalHours as the sum of
the section 4.2 active durations of the collected bookings. -/
def specTotalHours (bs : List Booking) : Rat :=
  ((bs.filter fun b => b.payment_collected_at.isSome).map specActiveHours).sum

/-! Concrete rows used in the scenario theorems below. -/

/-- A fresh pending booking (id 1, customer 2, service 3, amount 500). -/
def b0 : Booking := newBooking 1 2 3 0 500

/-- The row after cleaner 7 picked b0 at time 100. -/
def raceB1 : Booking :=
  { b0 with cleaner_id := some 7, status := Status.picked,
            picked_at := some 100 }

/-- Pick, start, pause, then complete while paused. -/
def opsPauseComplete : List Op :=
  [Op.pick 4 10, Op.start 20, Op.pause 30, Op.complete 40]

/-- A services table in which every id is the Car Wash service. -/
def carWashService : Nat → Option String := fun _ => some "Car Wash"

/-- A services table in which every id is the Home Cleaning service. -/
def homeService : Nat → Option String := fun _ => some "Home Cleaning"

/-- A completed booking of cleaner 1, priced 500, service 5. -/
def cexBooking : Booking :=
  { (newBooking 10 2 5 0 500) with
      cleaner_id := some 1,
      status := Status.completed, started_at := some 0,
      completed_at := some 3600000 }

/-- The earnings account of cleaner 1, empty. -/
def cexCleaner : Cleaner := { id := 1, earnings_balance := some 0 }

/-- A collected booking that worked 09:00 to 11:00 with 60 minutes of
recorded pause. -/
def cexPauseBooking : Booking :=
  { (newBooking 11 2 5 0 500) with
      cleaner_id := some 1,
      status := Status.payment_verified, started_at := some 0,
      completed_at := some 7200000, total_pause_duration := some 60,
      payment_collected_at := some 1, payment_proof_url := some "p" }

/-- A booking whose completed_at precedes its started_at by 30 minutes
(clock skew). -/
def cexNegBooking : Booking :=
  { (newBooking 12 2 5 0 500) with
      cleaner_id := some 1,
      status := Status.completed, started_at := some 3600000,
      completed_at := some 1800000 }

/-- A booking of cleaner 7 currently paused: started at 10, paused at
50. -/
def wPaused : Booking :=
  { (newBooking 13 2 5 0 500) with
      cleaner_id := some 7,
      status := Status.paused, started_at := some 10, paused_at := some 50 }

/-- A cleaner with balance 100. -/
def wCleaner : Cleaner := { id := 1, earnings_balance := some 100 }

/-- A completed booking of cleaner 9 awaiting proof upload. -/
def wOld : Booking :=
  { (newBooking 20 2 3 0 500) with
      cleaner_id := some 9,
      status := Status.completed, started_at := some 0,
      completed_at := some 1000 }

/-- The proposed row of the proof-upload update on wOld. -/
def wNew : Booking :=
  { wOld with payment_proof_url := some "url", payment_collected_at := some 5 }

/-- The earnings account of cleaner 9, empty. -/
def wVerifyCleaner : Cleaner := { id := 9, earnings_balance := some 0 }

/-- The earnings account of cleaner 3, empty. -/
def wBalCleaner : Cleaner := { id := 3, earnings_balance := some 0 }

/-- One booking of cleaner 3 priced exactly at the 200 service rate. -/
def wBalBookings : List Booking :=
  [{ (newBooking 30 2 5 0 200) with
       cleaner_id := some 3,
       status := Status.completed, started_at := some 0,
       completed_at := some 1000 }]

/-- A collected booking of cleaner 3 with one hour of work and no
recorded pause. -/
def wHoursBookings : List Booking :=
  [{ (newBooking 31 2 5 0 500) with
       cleaner_id := some 3,
       status := Status.payment_verified, started_at := some 0,
       completed_at := some 3600000, payment_collected_at := some 2,
       payment_proof_url := some "q" }]

/-! Helper lemmas. -/

/-- Folding additions from an accumulator is the accumulator plus the
sum of the mapped list. -/
theorem foldl_add_map {α M : Type} [AddCommMonoid M] (g : α → M)
    (l : List α) : ∀ a : M, l.foldl (fun s x => s + g x) a = a + (l.map g).sum := by
  induction l with
  | nil => intro a; simp
  | cons x l ih => intro a; simp [ih, add_assoc]

/-- pendingCashout as a mapped sum over the collected bookings. -/
theorem pendingCashout_eq_sum (bs : List Booking) :
    pendingCashout bs =
      ((bs.filter fun b => b.payment_collected_at.isSome).map Booking.amount).sum := by
  unfold pendingCashout
  simpa using
    foldl_add_map Booking.amount (bs.filter fun b => b.payment_collected_at.isSome) 0

/-- totalHours as a mapped sum over the collected bookings. -/
theorem totalHours_eq_sum (bs : List Booking) :
    totalHours bs =
      ((bs.filter fun b => b.payment_collected_at.isSome).map
        (fun b => ((((b.completed_at.getD 0) - (b.started_at.getD 0) : Int) : Rat) /
          (1000 * 60 * 60)))).sum := by
  unfold totalHours
  simpa using
    foldl_add_map
      (fun b : Booking =>
        ((((b.completed_at.getD 0) - (b.started_at.getD 0) : Int) : Rat) /
          (1000 * 60 * 60)))
      (bs.filter fun b => b.payment_collected_at.isSome) 0

/-- A freshly created booking satisfies the reachable-state facts. -/
theorem reachInv_newBooking (id uid sid : Nat) (sched amt : Int) :
    ReachInv (newBooking id uid sid sched amt) := by
  refine ⟨?_, ?_, ?_, ?_⟩ <;> simp [newBooking, ReachInv]

/-- Every single client write preserves the reachable-state facts. -/
theorem reachInv_applyOp (b : Booking) (op : Op) (h : ReachInv b) :
    ReachInv (applyOp b op) := by
  obtain ⟨h1, h2, h3, h4⟩ := h
  cases op with
  | pick me now =>
    simp only [applyOp]
    unfold pickBooking
    split
    · refine ⟨?_, ?_, ?_, ?_⟩ <;> simp_all [okOr, ReachInv]
    · simp only [okOr]; exact ⟨h1, h2, h3, h4⟩
  | start now =>
    simp only [applyOp]
    unfold startJob
    split
    · rename_i hc
      refine ⟨?_, ?_, ?_, ?_⟩ <;> simp_all [okOr, ReachInv]
    · simp only [okOr]; exact ⟨h1, h2, h3, h4⟩
  | pause now =>
    simp only [applyOp]
    unfold pauseJob
    split
    · refine ⟨?_, ?_, ?_, ?_⟩ <;> simp_all [okOr, ReachInv]
    · simp only [okOr]; exact ⟨h1, h2, h3, h4⟩
  | resume now =>
    simp only [applyOp]
    unfold resumeJob
    split
    · simp only [okOr]; exact ⟨h1, h2, h3, h4⟩
    · split
      · refine ⟨?_, ?_, ?_, ?_⟩ <;> simp_all [okOr, ReachInv]
      · simp only [okOr]; exact ⟨h1, h2, h3, h4⟩
  | complete now =>
    simp only [applyOp]
    unfold completeJob
    split
    · rename_i hc
      rcases hc.1 with hs | hs <;>
        (refine ⟨?_, ?_, ?_, ?_⟩ <;> simp_all [okOr, ReachInv])
    · simp only [okOr]; exact ⟨h1, h2, h3, h4⟩
  | upload url now =>
    simp only [applyOp]
    unfold uploadPaymentProofRow triggerRow
    split
    · refine ⟨?_, ?_, ?_, ?_⟩ <;> simp_all
    · rename_i hc
      have hproof : b.payment_proof_url.isSome = true := by
        cases hpu : b.payment_proof_url with
        | none => exact absurd ⟨by simp, hpu⟩ hc
        | some v => simp
      have hver : b.status = Status.payment_verified := h4.mp hproof
      refine ⟨?_, ?_, ?_, ?_⟩ <;> simp_all

/-- Every sequence of client writes preserves the reachable-state
facts. -/
theorem reachInv_run (ops : List Op) :
    ∀ b : Booking, ReachInv b → ReachInv (run b ops) := by
  induction ops with
  | nil => intro b h; simpa [run] using h
  | cons op ops ih =>
    intro b h
    have hstep : run b (op :: ops) = run (applyOp b op) ops := by
      simp [run]
    rw [hstep]
    exact ih _ (reachInv_applyOp b op h)

/-- On a fetched row whose payment_collected_at is set exactly when its
status is payment_verified, membership in the current list is the
negation of membership in the history list. -/
theorem partition_of_inv (me : Nat) (b : Booking)
    (h3 : b.payment_collected_at.isSome = true ↔ b.status = Status.payment_verified)
    (hf : fetchedBy me b = true) :
    inCurrent me b = !(inHistory me b) := by
  unfold fetchedBy availableFilter cleanerOwned at hf
  unfold inCurrent inHistory availableFilter cleanerOwned currentFilter
  cases hst : b.status <;> simp_all

/-! Claim theorems. -/

/-- Claim C1: pickBooking on a booking that is no longer pending leaves
the row unchanged (so only one of two racing cleaners can ever acquire
it), but the caller does NOT receive a conflict error: the conditional
update matches zero rows, the store client reports no error, and
pickBooking resolves successfully.  Concretely, after cleaner 7 picks
the pending booking b0, cleaner 8 calling pickBooking on the same row
gets Except.ok with the row still assigned to cleaner 7. -/
theorem pickBooking_silent_conflict :
    pickBooking 7 100 b0 = Except.ok raceB1 ∧
    raceB1.status = Status.picked ∧
    raceB1.cleaner_id = some 7 ∧
    pickBooking 8 101 raceB1 = Except.ok raceB1 := by
  refine ⟨?_, ?_, ?_, ?_⟩ <;> rfl

/-- Claim C2: on the null to non-null edge of payment_proof_url the
trigger, in the same row update, sets payment_collected_at to now,
sets the status to payment_verified, credits the assigned cleaner by
the fixed service rate (150 for Car Wash, otherwise 200) and appends
exactly one history entry; on a non-null to non-null change it has
none of these effects. -/
theorem verify_payment_trigger_spec (old new : Booking) (c : Cleaner)
    (cs : List Cleaner) (serviceName : Nat → Option String) (now : Int)
    (u : String)
    (hold : old.payment_proof_url = none)
    (hnew : new.payment_proof_url = some u)
    (hcl : new.cleaner_id = some c.id) :
    verify_payment_and_update_earnings old new [c] serviceName now =
      ({ new with payment_collected_at := some now,
                  status := Status.payment_verified },
       [{ c with earnings_balance :=
                   some ((c.earnings_balance.getD 0) +
                     serviceRate serviceName new.service_id),
                 earnings_history := c.earnings_history ++
                   [{ booking_id := new.id,
                      amount := serviceRate serviceName new.service_id,
                      service := serviceName new.service_id,
                      earned_at := now }] }]) ∧
    (serviceRate serviceName new.service_id =
       if serviceName new.service_id = some "Car Wash" then 150 else 200) ∧
    (∀ old2 new2 : Booking, ∀ v : String,
       old2.payment_proof_url = some v →
       verify_payment_and_update_earnings old2 new2 cs serviceName now =
         (new2, cs)) := by
  refine ⟨?_, rfl, ?_⟩
  · simp [verify_payment_and_update_earnings, triggerRow, hold, hnew, hcl,
      serviceRate]
  · intro old2 new2 v h
    simp [verify_payment_and_update_earnings, h]

/-- Witness for claim C2: a concrete Car Wash proof upload on the
completed booking wOld. -/
theorem verify_payment_trigger_witness :
    verify_payment_and_update_earnings wOld wNew [wVerifyCleaner]
        carWashService 5 =
      ({ wNew with payment_collected_at := some 5,
                   status := Status.payment_verified },
       [{ wVerifyCleaner with
            earnings_balance :=
              some ((wVerifyCleaner.earnings_balance.getD 0) +
                serviceRate carWashService wNew.service_id),
            earnings_history := wVerifyCleaner.earnings_history ++
              [{ booking_id := wNew.id,
                 amount := serviceRate carWashService wNew.service_id,
                 service := carWashService wNew.service_id,
                 earned_at := 5 }] }]) :=
  (verify_payment_trigger_spec wOld wNew wVerifyCleaner [] carWashService 5
    "url" rfl rfl rfl).1

/-- Claim C3 counterexample: completing a job from the paused state
leaves paused_at set while the status is completed, so the claimed
biconditional (paused_at non-null iff status paused) fails in a state
reachable by pick, start, pause, complete. -/
theorem paused_at_iff_counterexample :
    (run b0 opsPauseComplete).status = Status.completed ∧
    (run b0 opsPauseComplete).paused_at = some 30 ∧
    ¬((run b0 opsPauseComplete).paused_at.isSome = true ↔
      (run b0 opsPauseComplete).status = Status.paused) := by
  refine ⟨?_, ?_, ?_⟩ <;> decide

/-- Claim C3 (amended): in every state reachable through the client
operations, status paused implies paused_at is set, and paused_at set
implies the status is paused, completed or payment_verified; the
biconditional itself fails because completeJob never clears
paused_at. -/
theorem paused_at_reachable (id uid sid : Nat) (sched amt : Int)
    (ops : List Op) :
    ((run (newBooking id uid sid sched amt) ops).status = Status.paused →
      (run (newBooking id uid sid sched amt) ops).paused_at.isSome = true) ∧
    ((run (newBooking id uid sid sched amt) ops).paused_at.isSome = true →
      (run (newBooking id uid sid sched amt) ops).status = Status.paused ∨
      (run (newBooking id uid sid sched amt) ops).status = Status.completed ∨
      (run (newBooking id uid sid sched amt) ops).status =
        Status.payment_verified) := by
  have h := reachInv_run ops _ (reachInv_newBooking id uid sid sched amt)
  exact ⟨h.1, h.2.1⟩

/-- Witness for the amended claim C3: a booking actually paused has
paused_at set. -/
theorem paused_at_reachable_witness :
    (run (newBooking 1 2 3 0 500)
      [Op.pick 4 10, Op.start 20, Op.pause 30]).paused_at.isSome = true :=
  (paused_at_reachable 1 2 3 0 500
    [Op.pick 4 10, Op.start 20, Op.pause 30]).1 (by decide)

/-- Claim C4: every booking a cleaner fetches appears in exactly one of
the current list and the history list, for every state the client
operations can persist. -/
theorem current_history_partition (id uid sid : Nat) (sched amt : Int)
    (ops : List Op) (me : Nat)
    (hf : fetchedBy me (run (newBooking id uid sid sched amt) ops) = true) :
    inCurrent me (run (newBooking id uid sid sched amt) ops) =
      !(inHistory me (run (newBooking id uid sid sched amt) ops)) := by
  have h := reachInv_run ops _ (reachInv_newBooking id uid sid sched amt)
  exact partition_of_inv me _ h.2.2.1 hf

/-- Witness for claim C4: a fresh pending booking is in the current
list and not in the history list. -/
theorem current_history_partition_witness :
    inCurrent 0 (run (newBooking 1 2 3 0 500) []) =
      !(inHistory 0 (run (newBooking 1 2 3 0 500) [])) :=
  current_history_partition 1 2 3 0 500 [] 0 (by decide)

/-- Claim C5 counterexample: a collected booking priced 500 on a
non-Car-Wash service contributes 500 to pendingCashout but only the
fixed 200 rate to earnings_balance, so the two figures differ. -/
theorem pendingCashout_ne_balance :
    pendingCashout
        [(uploadPaymentProof cexBooking "proof" [cexCleaner] homeService 99).1] =
      500 ∧
    ((uploadPaymentProof cexBooking "proof" [cexCleaner]
        homeService 99).2.headD cexCleaner).earnings_balance = some 200 ∧
    pendingCashout
        [(uploadPaymentProof cexBooking "proof" [cexCleaner] homeService 99).1] ≠
      ((uploadPaymentProof cexBooking "proof" [cexCleaner]
          homeService 99).2.headD cexCleaner).earnings_balance.getD 0 := by
  refine ⟨?_, ?_, ?_⟩ <;> decide

/-- The effect of one proof upload against a single-cleaner table when
the stored proof is still null and the row is assigned to that
cleaner. -/
theorem uploadPaymentProof_fresh (b : Booking) (c : Cleaner)
    (serviceName : Nat → Option String) (now : Int) (url : String)
    (hp : b.payment_proof_url = none) (hcl : b.cleaner_id = some c.id) :
    uploadPaymentProof b url [c] serviceName now =
      ({ b with payment_proof_url := some url,
                payment_collected_at := some now,
                status := Status.payment_verified },
       [{ c with earnings_balance :=
                   some ((c.earnings_balance.getD 0) +
                     serviceRate serviceName b.service_id),
                 earnings_history := c.earnings_history ++
                   [{ booking_id := b.id,
                      amount := serviceRate serviceName b.service_id,
                      service := serviceName b.service_id,
                      earned_at := now }] }]) := by
  simp [uploadPaymentProof, verify_payment_and_update_earnings, triggerRow,
    hp, hcl, serviceRate]

/-- pendingCashout over a cons. -/
theorem pendingCashout_cons (x : Booking) (l : List Booking) :
    pendingCashout (x :: l) =
      (if x.payment_collected_at.isSome then x.amount else 0) +
        pendingCashout l := by
  rw [pendingCashout_eq_sum, pendingCashout_eq_sum]
  by_cases hx : x.payment_collected_at.isSome = true <;>
    simp [List.filter_cons, hx]

/-- Uploading proofs for a list of fresh bookings of one cleaner: the
resulting pendingCashout is the sum of the booking amounts, while the
resulting balance is the old balance plus the sum of the fixed service
rates. -/
theorem uploadAll_spec (serviceName : Nat → Option String) (now : Int)
    (url : String) (bs : List Booking) :
    ∀ c : Cleaner,
      (∀ b ∈ bs, b.payment_proof_url = none ∧ b.cleaner_id = some c.id) →
      pendingCashout (uploadAll serviceName now url bs c).1 =
        (bs.map Booking.amount).sum ∧
      ((uploadAll serviceName now url bs c).2).earnings_balance.getD 0 =
        c.earnings_balance.getD 0 +
          (bs.map fun b => serviceRate serviceName b.service_id).sum ∧
      ((uploadAll serviceName now url bs c).2).id = c.id := by
  induction bs with
  | nil => intro c h; simp [uploadAll, pendingCashout]
  | cons b bs ih =>
    intro c h
    have hb := h b (by simp)
    have hr := uploadPaymentProof_fresh b c serviceName now url hb.1 hb.2
    have hrest := ih { c with
        earnings_balance :=
          some ((c.earnings_balance.getD 0) +
            serviceRate serviceName b.service_id),
        earnings_history := c.earnings_history ++
          [{ booking_id := b.id,
             amount := serviceRate serviceName b.service_id,
             service := serviceName b.service_id,
             earned_at := now }] }
      (by intro b' hb'; simpa using h b' (by simp [hb']))
    simp only [uploadAll, hr, List.headD_cons]
    refine ⟨?_, ?_, ?_⟩
    · rw [pendingCashout_cons]
      simp [hrest.1]
    · rw [hrest.2.1]
      simp [add_assoc]
    · exact hrest.2.2

/-- Claim C5 (amended): pendingCashout is the amount-sum of the
collected bookings; it equals earnings_balance when every booking is
priced exactly at its fixed service rate, the account starts at zero
and no withdrawal has happened. -/
theorem pendingCashout_eq_balance_of_rates (c : Cleaner)
    (bs : List Booking) (serviceName : Nat → Option String) (now : Int)
    (url : String)
    (hpf : ∀ b ∈ bs, b.payment_proof_url = none ∧ b.cleaner_id = some c.id)
    (hamt : ∀ b ∈ bs, Booking.amount b = serviceRate serviceName b.service_id)
    (hbal : c.earnings_balance.getD 0 = 0) :
    pendingCashout (uploadAll serviceName now url bs c).1 =
      ((uploadAll serviceName now url bs c).2).earnings_balance.getD 0 := by
  obtain ⟨h1, h2, h3⟩ := uploadAll_spec serviceName now url bs c hpf
  rw [h1, h2, hbal, zero_add]
  exact congrArg List.sum (List.map_congr_left hamt)

/-- Witness for the amended claim C5: one booking priced at the 200
rate yields pendingCashout equal to the balance. -/
theorem pendingCashout_eq_balance_witness :
    pendingCashout (uploadAll homeService 7 "u" wBalBookings wBalCleaner).1 =
      ((uploadAll homeService 7 "u"
          wBalBookings wBalCleaner).2).earnings_balance.getD 0 :=
  pendingCashout_eq_balance_of_rates wBalCleaner wBalBookings homeService 7 "u"
    (by decide) (by decide) (by decide)

/-- Claim C6 counterexample: uploadPaymentProof has no status guard and
no once-only guard: on the pending booking b0 its row update sets both
proof fields, and a second call overwrites them with fresh values. -/
theorem uploadProof_unguarded_counterexample :
    b0.status ≠ Status.completed ∧
    (uploadPaymentProofRow "u1" 5 b0).payment_proof_url = some "u1" ∧
    (uploadPaymentProofRow "u1" 5 b0).payment_collected_at = some 5 ∧
    (uploadPaymentProofRow "u2" 9
        (uploadPaymentProofRow "u1" 5 b0)).payment_proof_url = some "u2" ∧
    (uploadPaymentProofRow "u2" 9
        (uploadPaymentProofRow "u1" 5 b0)).payment_collected_at = some 9 := by
  refine ⟨?_, ?_, ?_, ?_, ?_⟩ <;> decide

/-- Claim C6 (amended): uploadPaymentProof sets payment_proof_url and
payment_collected_at together in its single row update, on every
booking, regardless of the current status and of the prior values of
the two fields; only the dashboard UI restricts the action to
completed bookings with null proof fields. -/
theorem uploadPaymentProof_sets_both (b : Booking) (url : String)
    (cs : List Cleaner) (serviceName : Nat → Option String) (now : Int) :
    ((uploadPaymentProof b url cs serviceName now).1).payment_proof_url =
      some url ∧
    ((uploadPaymentProof b url cs serviceName now).1).payment_collected_at =
      some now := by
  by_cases hp : b.payment_proof_url = none <;>
    simp [uploadPaymentProof, verify_payment_and_update_earnings,
      triggerRow, hp]

/-- Claim C7 counterexample: a collected booking with two wall-clock
hours and sixty minutes of recorded pause contributes two hours to
totalHours but only one hour of active duration per spec section 4.2,
so the dashboard figure differs from the claimed sum. -/
theorem totalHours_ignores_pause_counterexample :
    totalHours [cexPauseBooking] = 2 ∧
    specTotalHours [cexPauseBooking] = 1 ∧
    totalHours [cexPauseBooking] ≠ specTotalHours [cexPauseBooking] := by
  have h1 : totalHours [cexPauseBooking] = 2 := by
    simp [totalHours, cexPauseBooking, newBooking]
    norm_num
  have h2 : specTotalHours [cexPauseBooking] = 1 := by
    simp [specTotalHours, specActiveHours, cexPauseBooking, newBooking]
    norm_num
  refine ⟨h1, h2, ?_⟩
  rw [h1, h2]
  norm_num

/-- The raw-hours sum of a list exceeds its active-hours sum by
exactly the total recorded pause of the list, converted to hours. -/
theorem rawHours_sub_activeHours (L : List Booking) :
    (L.map fun b =>
      ((((b.completed_at.getD 0) - (b.started_at.getD 0) : Int) : Rat) /
        (1000 * 60 * 60))).sum =
    (L.map specActiveHours).sum +
      (((L.map fun b => b.total_pause_duration.getD 0).sum : Int) : Rat) / 60 := by
  induction L with
  | nil => simp
  | cons b L ih =>
    simp only [List.map_cons, List.sum_cons, ih]
    unfold specActiveHours
    push_cast
    ring

/-- Claim C7 (amended): totalHours exceeds the section 4.2
active-duration sum by exactly the collected bookings total recorded
pause converted to hours; hence the two agree exactly when the
collected bookings recorded pauses sum to zero, and in particular
whenever every collected booking has zero recorded pause. -/
theorem totalHours_eq_spec_iff (bs : List Booking) :
    totalHours bs =
      specTotalHours bs +
        ((((bs.filter fun b => b.payment_collected_at.isSome).map
            fun b => b.total_pause_duration.getD 0).sum : Int) : Rat) / 60 ∧
    (totalHours bs = specTotalHours bs ↔
      ((bs.filter fun b => b.payment_collected_at.isSome).map
          fun b => b.total_pause_duration.getD 0).sum = 0) ∧
    ((∀ b ∈ bs, b.payment_collected_at.isSome = true →
        b.total_pause_duration.getD 0 = 0) →
      totalHours bs = specTotalHours bs) := by
  have hGap : totalHours bs =
      specTotalHours bs +
        ((((bs.filter fun b => b.payment_collected_at.isSome).map
            fun b => b.total_pause_duration.getD 0).sum : Int) : Rat) / 60 := by
    rw [totalHours_eq_sum]
    unfold specTotalHours
    exact rawHours_sub_activeHours (bs.filter fun b => b.payment_collected_at.isSome)
  have hiff : totalHours bs = specTotalHours bs ↔
      ((bs.filter fun b => b.payment_collected_at.isSome).map
          fun b => b.total_pause_duration.getD 0).sum = 0 := by
    rw [hGap, add_right_eq_self, div_eq_zero_iff, Int.cast_eq_zero]
    simp
  refine ⟨hGap, hiff, fun h => hiff.mpr (List.sum_eq_zero ?_)⟩
  intro x hx
  obtain ⟨b, hb, rfl⟩ := List.mem_map.mp hx
  have hbm := List.mem_filter.mp hb
  exact h b hbm.1 hbm.2

/-- Witness for the amended claim C7: one collected one-hour booking
with no pause. -/
theorem totalHours_eq_spec_witness :
    totalHours wHoursBookings = specTotalHours wHoursBookings :=
  (totalHours_eq_spec_iff wHoursBookings).2.2 (by decide)

/-- Claim C8 counterexample: on a booking whose completed_at precedes
its started_at by thirty minutes, getJobDuration reports "-1h -30m",
not the claimed clamped "0h 0m". -/
theorem getJobDuration_no_clamp_counterexample :
    jobDurationMs cexNegBooking 0 = -1800000 ∧
    getJobDuration cexNegBooking 0 = "-1h -30m" ∧
    getJobDuration cexNegBooking 0 ≠ "0h 0m" := by
  refine ⟨?_, ?_, ?_⟩ <;> decide

/-- Claim C8 (amended): getJobDuration applies no clamping: the hours
and minutes are non-negative whenever the computed millisecond
duration is non-negative, and the hours figure is strictly negative
whenever the computed duration is negative. -/
theorem jobDuration_sign (b : Booking) (now : Int) :
    (0 ≤ jobDurationMs b now →
      0 ≤ durationHours (jobDurationMs b now) ∧
      0 ≤ durationMinutes (jobDurationMs b now)) ∧
    (jobDurationMs b now < 0 →
      durationHours (jobDurationMs b now) < 0) := by
  constructor
  · intro h
    unfold durationHours durationMinutes
    exact ⟨Int.fdiv_nonneg h (by norm_num),
      Int.fdiv_nonneg (Int.tmod_nonneg _ h) (by norm_num)⟩
  · intro h
    unfold durationHours
    exact Int.fdiv_neg' h (by norm_num)

/-- Witness for the amended claim C8: a booking with a non-negative
computed duration gets non-negative hours and minutes. -/
theorem jobDuration_sign_witness :
    0 ≤ durationHours (jobDurationMs cexPauseBooking 0) ∧
    0 ≤ durationMinutes (jobDurationMs cexPauseBooking 0) :=
  (jobDuration_sign cexPauseBooking 0).1 (by decide)

/-- Claim C9: while a booking stays paused (paused_at set, completed_at
null), getJobDuration at any time t at or after the pause equals
getJobDuration at the pause instant itself: the reported active
duration does not move with the clock. -/
theorem getJobDuration_frozen_while_paused (b : Booking) (t p : Int)
    (hs : b.status = Status.paused) (hp : b.paused_at = some p)
    (hc : b.completed_at = none) (_ht : p ≤ t) :
    getJobDuration b t = getJobDuration b p := by
  have hd : jobDurationMs b t = jobDurationMs b p := by
    unfold jobDurationMs
    rw [hs, hp, hc]
    simp
    omega
  unfold getJobDuration
  cases hst : b.started_at with
  | none => rfl
  | some s => rw [hd]

/-- Witness for claim C9: the paused booking wPaused reads the same
duration at time 100 as at its pause time 50. -/
theorem getJobDuration_frozen_witness :
    getJobDuration wPaused 100 = getJobDuration wPaused 50 :=
  getJobDuration_frozen_while_paused wPaused 100 50 rfl rfl rfl (by decide)

/-- Claim C10: requestWithdrawal raises Insufficient balance exactly
when the balance is strictly below the requested amount; a request for
the exact balance succeeds and zeroes it; and since only the strict
comparison guards the call, a negative amount is accepted and the
written balance, old balance minus amount, strictly exceeds the old
balance. -/
theorem requestWithdrawal_spec (c : Cleaner) (amt : Int) :
    ((requestWithdrawal c amt = Except.error DbErr.insufficientBalance) ↔
      c.earnings_balance.getD 0 < amt) ∧
    (amt ≤ c.earnings_balance.getD 0 →
      requestWithdrawal c amt =
        Except.ok
          ({ c with
              earnings_balance := some ((c.earnings_balance.getD 0) - amt) },
           { cleaner_id := c.id, amount := amt })) ∧
    (requestWithdrawal c (c.earnings_balance.getD 0) =
      Except.ok
        ({ c with earnings_balance := some 0 },
         { cleaner_id := c.id, amount := c.earnings_balance.getD 0 })) ∧
    (amt < 0 →
      c.earnings_balance.getD 0 < c.earnings_balance.getD 0 - amt) := by
  refine ⟨?_, ?_, ?_, ?_⟩
  · unfold requestWithdrawal
    split
    · rename_i h; simp [h]
    · rename_i h; simp [h]
  · intro h
    unfold requestWithdrawal
    rw [if_neg (by omega)]
  · unfold requestWithdrawal
    rw [if_neg (by omega)]
    simp
  · intro h; omega

/-- Witness for claim C10: withdrawing the whole balance of 100
succeeds and writes balance 0. -/
theorem requestWithdrawal_witness :
    requestWithdrawal wCleaner 100 =
      Except.ok
        ({ wCleaner with
            earnings_balance := some ((wCleaner.earnings_balance.getD 0) - 100) },
         { cleaner_id := wCleaner.id, amount := 100 }) :=
  (requestWithdrawal_spec wCleaner 100).2.1 (by decide)

end SafaiWalay
